import Mathlib

/-!
Verification of the StreamBridge identifier-resolution and stream-assembly
core (src/lib/jellyfin.js and the stream handler of src/lib/Adson.js).
The JavaScript is shallowly embedded: upstream Jellyfin HTTP calls are an
explicit environment of fallible oracles (`Except Unit`), JS strings are
Lean `String`s manipulated through their character lists, and JS `parseInt`
/ `split` / truthiness are modelled by executable Lean functions below.
-/

namespace StreamBridge

/-! ## JavaScript string and number primitives -/

/-- Whitespace characters skipped by JS `parseInt`. -/
def isJsSpace (c : Char) : Bool :=
  c == ' ' || c == '\t' || c == '\n' || c == '\r'

/-- Value of a single digit character in the given radix, if any. -/
def digitValue? (radix : Nat) (c : Char) : Option Nat :=
  let v : Option Nat :=
    if '0' ≤ c && c ≤ '9' then some (c.toNat - '0'.toNat)
    else if 'a' ≤ c && c ≤ 'z' then some (c.toNat - 'a'.toNat + 10)
    else if 'A' ≤ c && c ≤ 'Z' then some (c.toNat - 'A'.toNat + 10)
    else none
  match v with
  | some d => if d < radix then some d else none
  | none => none

/-- Longest prefix of digits in the given radix. -/
def takeDigits (radix : Nat) : List Char → List Nat
  | [] => []
  | c :: rest =>
    match digitValue? radix c with
    | some d => d :: takeDigits radix rest
    | none => []

/-- Numeric value of a digit list, most significant first. -/
def digitsVal (radix : Nat) (ds : List Nat) : Nat :=
  ds.foldl (fun acc d => acc * radix + d) 0

/-- JS `parseInt(s)`: skip whitespace, optional sign, optional `0x` hex
prefix, then read the longest digit prefix; `NaN` becomes `none`. -/
def jsParseInt (s : String) : Option Int :=
  let cs := s.data.dropWhile isJsSpace
  let signed : Bool × List Char :=
    match cs with
    | '-' :: rest => (true, rest)
    | '+' :: rest => (false, rest)
    | _ => (false, cs)
  let based : Nat × List Char :=
    match signed.2 with
    | '0' :: 'x' :: rest => (16, rest)
    | '0' :: 'X' :: rest => (16, rest)
    | _ => (10, signed.2)
  let ds := takeDigits based.1 based.2
  if ds.isEmpty then none
  else
    let v : Int := Int.ofNat (digitsVal based.1 ds)
    some (if signed.1 then -v else v)

/-- Split a character list on a separator character, JS `split` style:
the empty list yields one empty segment. -/
def splitChars (sep : Char) : List Char → List (List Char)
  | [] => [[]]
  | c :: cs =>
    match splitChars sep cs with
    | [] => [[c]]
    | r :: rs => if c = sep then [] :: r :: rs else (c :: r) :: rs

/-- JS `s.split(sep)` for a single-character separator. -/
def jsSplit (sep : Char) (s : String) : List String :=
  (splitChars sep s.data).map (fun cs => String.mk cs)

/-- Interleave a separator character between segments (inverse of split). -/
def joinChars (sep : Char) : List (List Char) → List Char
  | [] => []
  | [x] => x
  | x :: y :: ys => x ++ sep :: joinChars sep (y :: ys)

/-- JS `parts.join(sep)`. -/
def joinSep (sep : String) : List String → String
  | [] => ""
  | [x] => x
  | x :: y :: ys => x ++ sep ++ joinSep sep (y :: ys)

/-- Character-list test that `pre` is a prefix of `s`. -/
def strPre : List Char → List Char → Bool
  | [], _ => true
  | _ :: _, [] => false
  | c :: cs, d :: ds => (c == d) && strPre cs ds

/-- JS `s.startsWith(p)`. -/
def jsStartsWith (s p : String) : Bool :=
  strPre p.data s.data

/-- Drop the first `n` characters of a string (used for stripping scheme
prefixes; `s.replace(p, '')` on a string starting with `p` strips `p`,
since `replace` only substitutes the first occurrence). -/
def jsDrop (s : String) (n : Nat) : String :=
  String.mk (s.data.drop n)

/-- JS `a || b` for a possibly-missing string `a`: `undefined`, `null` and
`""` are falsy and select `b`. -/
def jsOrS (a : Option String) (b : String) : String :=
  match a with
  | some s => if s = "" then b else s
  | none => b

/-- JS string interpolation of a possibly-undefined value. -/
def jsStrOpt (a : Option String) : String :=
  match a with
  | some s => s
  | none => "undefined"

/-- JS `s.toLowerCase()` (character-wise lowering over the char list). -/
def jsToLower (s : String) : String :=
  String.mk (s.data.map Char.toLower)

/-! ## Data model (Jellyfin item shapes used by the core) -/

/-- One elementary track of a media source (`MediaStreams` entry). -/
structure MediaStream where
  «Type» : Option String
  Height : Option Int
  IsExternal : Option Bool
  Index : Int
  Language : Option String
  DisplayTitle : Option String
deriving DecidableEq

/-- One encoded variant of an item's content (`MediaSources` entry). -/
structure MediaSource where
  Id : Option String
  Name : Option String
  MediaStreams : List MediaStream
deriving DecidableEq

/-- A Jellyfin catalog item (movie, series or episode). -/
structure MediaItem where
  Id : String
  Name : Option String
  «Type» : Option String
  ProviderIds : List (String × String)
  MediaSources : List MediaSource
  SeriesId : Option String
  IndexNumber : Option Int
  ParentIndexNumber : Option Int
deriving DecidableEq

/-- A subtitle track attached to a stream descriptor. -/
structure Subtitle where
  id : String
  url : String
  lang : String
  label : String
deriving DecidableEq

/-- The Stremio-facing stream descriptor built by `buildStream`. -/
structure StreamDescriptor where
  url : String
  title : String
  name : String
  subtitles : Option (List Subtitle)
  notWebReady : Bool
  bingeGroup : String
deriving DecidableEq

/-- Static addon configuration (server name and the URL/credential pieces
of `JellyfinClient`). -/
structure Config where
  serverName : String
  baseUrl : String
  apiKey : String

/-- Upstream Jellyfin HTTP oracle.  Each field models one GET endpoint used
by the core; `Except.error` models a network/HTTP failure of that call. -/
structure Env where
  /-- `/Users/{uid}/Items` with `AnyProviderIdEquals=pid.value` and the
  given `IncludeItemTypes` value. -/
  searchItems : String → String → String → Except Unit (List MediaItem)
  /-- `/Users/{uid}/Items/{id}` (single-item lookup by native id). -/
  getUserItem : String → Except Unit MediaItem
  /-- `/Shows/{seriesId}/Episodes`, optionally filtered by `SeasonNumber`. -/
  getShowEpisodes : String → Option Int → Except Unit (List MediaItem)

/-! ## jellyfin.js -/

/-- `JellyfinClient.streamUrl`. -/
def streamUrl (cfg : Config) (itemId : String) : String :=
  cfg.baseUrl ++ "/Videos/" ++ itemId ++ "/stream?static=true&api_key=" ++ cfg.apiKey

/-- `JellyfinClient.getSubtitleUrl`. -/
def getSubtitleUrl (cfg : Config) (itemId : String) (subtitleIndex : Int) : String :=
  cfg.baseUrl ++ "/Videos/" ++ itemId ++ "/Subtitles/" ++ toString subtitleIndex
    ++ "/Stream.srt?api_key=" ++ cfg.apiKey

/-- `IncludeItemTypes` value computed inside `findByProviderId`. -/
def includeTypesFor (itemType : Option String) : String :=
  match itemType with
  | none => "Movie,Series"
  | some t => if t = "movie" then "Movie" else "Series"

/-- `JellyfinClient.findByProviderId`: broad upstream search followed by
the mandatory local case-insensitive re-check of the provider-id map; a
failed request degrades to the empty list. -/
def findByProviderId (env : Env) (providerId providerValue : String)
    (itemType : Option String) : List MediaItem :=
  match env.searchItems providerId providerValue (includeTypesFor itemType) with
  | Except.error _ => []
  | Except.ok items =>
    let normalizedValue := jsToLower providerValue
    items.filter (fun item =>
      item.ProviderIds.any (fun kv =>
        jsToLower kv.1 == jsToLower providerId && jsToLower kv.2 == normalizedValue))

/-- `JellyfinClient.resolveStremioId`: scheme classification of the base
identifier and dispatch to the provider-id search (or, for `jellyfin:` ids,
a direct item lookup whose failure degrades to the empty list). -/
def resolveStremioId (env : Env) (stremioId : String) (ty : Option String) :
    List MediaItem :=
  if jsStartsWith stremioId "tt" then
    findByProviderId env "Imdb" stremioId ty
  else if jsStartsWith stremioId "tmdb:" then
    findByProviderId env "Tmdb" (jsDrop stremioId 5) ty
  else if jsStartsWith stremioId "tvdb:" then
    findByProviderId env "Tvdb" (jsDrop stremioId 5) ty
  else if jsStartsWith stremioId "anidb:" then
    findByProviderId env "AniDb" (jsDrop stremioId 6) ty
  else if jsStartsWith stremioId "jellyfin:" then
    match env.getUserItem (jsDrop stremioId 9) with
    | Except.ok item => [item]
    | Except.error _ => []
  else []

/-- `JellyfinClient.getEpisodeFallback`: unfiltered episode query with
client-side season+episode match; errors degrade to `none`. -/
def getEpisodeFallback (env : Env) (seriesId : String) (season episode : Int) :
    Option MediaItem :=
  match env.getShowEpisodes seriesId none with
  | Except.error _ => none
  | Except.ok episodes =>
    episodes.find? (fun e =>
      e.ParentIndexNumber == some season && e.IndexNumber == some episode)

/-- `JellyfinClient.getEpisode`: season-filtered query scanned for the
episode index, falling back to `getEpisodeFallback` when no entry matches;
a failed primary request degrades to `none` without attempting the
fallback. -/
def getEpisode (env : Env) (seriesId : String) (season episode : Int) :
    Option MediaItem :=
  match env.getShowEpisodes seriesId (some season) with
  | Except.error _ => none
  | Except.ok episodes =>
    match episodes.find? (fun e => e.IndexNumber == some episode) with
    | some found => some found
    | none => getEpisodeFallback env seriesId season episode

/-- `JellyfinClient.extractSubtitles`: from the first source only, keep
subtitle streams not explicitly flagged `IsExternal: false`. -/
def extractSubtitles (cfg : Config) (mediaSources : List MediaSource) :
    List Subtitle :=
  match mediaSources with
  | [] => []
  | source :: _ =>
    let streams := source.MediaStreams
    (streams.filter (fun s =>
        s.«Type» == some "Subtitle" && s.IsExternal != some false)).map
      (fun s =>
        { id := toString s.Index
          url := getSubtitleUrl cfg (jsStrOpt source.Id) s.Index
          lang := jsOrS s.Language "und"
          label := jsOrS s.DisplayTitle (jsOrS s.Language "Legenda") })

/-! ## Adson.js stream handler -/

/-- `getVideoHeight`: height of the first video-type stream, if any. -/
def getVideoHeight (mediaSource : MediaSource) : Option Int :=
  match mediaSource.MediaStreams.find? (fun s => s.«Type» == some "Video") with
  | some video => video.Height
  | none => none

/-- Resolution bucket computed by the `if (height)` block of `buildStream`.
A missing height, and height `0` (falsy in JS), yield no label. -/
def resolutionLabel (mediaSource : MediaSource) : String :=
  match getVideoHeight mediaSource with
  | none => ""
  | some height =>
    if height = 0 then ""
    else if height ≥ 2160 then "4K"
    else if height ≥ 1080 then "1080p"
    else if height ≥ 720 then "720p"
    else toString height ++ "p"

/-- The full quality label of `buildStream`: resolution bucket, then the
source's own name when present, non-empty and different from the item's
display name. -/
def streamQualityLabel (item : MediaItem) (mediaSource : Option MediaSource) :
    String :=
  match mediaSource with
  | none => ""
  | some src =>
    let q := resolutionLabel src
    match src.Name with
    | some n =>
      if n ≠ "" ∧ item.Name ≠ some n then
        (if q = "" then n else q ++ " – " ++ n)
      else q
    | none => q

/-- `buildStream`: one Stremio stream descriptor for a (possibly absent)
media source of a resolved item. -/
def buildStream (cfg : Config) (sourceId : String) (item : MediaItem)
    (mediaSource : Option MediaSource) : StreamDescriptor :=
  let qualityLabel := streamQualityLabel item mediaSource
  let title :=
    if qualityLabel = "" then "📺 " ++ cfg.serverName
    else "📺 " ++ cfg.serverName ++ "\n" ++ qualityLabel
  let url := streamUrl cfg sourceId
  let subtitles := extractSubtitles cfg
    (match mediaSource with | some m => [m] | none => [])
  { url := url
    title := title
    name := cfg.serverName
    subtitles := if subtitles.isEmpty then none else some subtitles
    notWebReady := true
    bingeGroup := "jellyfin-" ++ jsOrS item.SeriesId item.Id }

/-- The per-item descriptor assembly of the stream handler: one fallback
descriptor from the item's own id when it has no media sources, else one
descriptor per source (`source.Id || targetItem.Id` as playback handle). -/
def assembleStreams (cfg : Config) (targetItem : MediaItem) :
    List StreamDescriptor :=
  let mediaSources := targetItem.MediaSources
  if mediaSources.isEmpty then
    [buildStream cfg targetItem.Id targetItem none]
  else
    mediaSources.map (fun source =>
      buildStream cfg (jsOrS source.Id targetItem.Id) targetItem (some source))

/-- The season/episode parsing block of the stream handler: for series ids
with at least three `:`-segments whose last two `parseInt` successfully,
strip them off; otherwise keep the whole id. -/
def parseStreamId (ty id : String) : String × Option Int × Option Int :=
  if ty = "series" then
    if 3 ≤ (jsSplit ':' id).length then
      match jsParseInt ((jsSplit ':' id).getLastD ""),
            jsParseInt ((jsSplit ':' id).dropLast.getLastD "") with
      | some ep, some se =>
        (joinSep ":" (jsSplit ':' id).dropLast.dropLast, some se, some ep)
      | some _, none => (id, none, none)
      | none, _ => (id, none, none)
    else (id, none, none)
  else (id, none, none)

/-- The post-resolution part of the stream handler: only the first resolved
candidate is used; series requests require season and episode and go
through `getEpisode` unless the candidate is already an episode. -/
def streamsForItems (cfg : Config) (env : Env) (ty : String)
    (season episode : Option Int) (items : List MediaItem) :
    List StreamDescriptor :=
  match items with
  | [] => []
  | item :: _ =>
    if ty = "series" then
      match season, episode with
      | some s, some e =>
        if item.«Type» = some "Episode" then assembleStreams cfg item
        else
          match getEpisode env item.Id s e with
          | none => []
          | some ep => assembleStreams cfg ep
      | _, _ => []
    else assembleStreams cfg item

/-- The full `stream({ type, id })` handler. -/
def streamHandler (cfg : Config) (env : Env) (ty id : String) :
    List StreamDescriptor :=
  streamsForItems cfg env ty (parseStreamId ty id).2.1 (parseStreamId ty id).2.2
    (resolveStremioId env (parseStreamId ty id).1 (some ty))

/-! ## Concrete sample data (used by witnesses and counterexamples) -/

/-- Sample configuration. -/
def cfgEx : Config :=
  { serverName := "Jellyfin", baseUrl := "http://srv", apiKey := "key" }

/-- A video stream with the given height. -/
def videoStream (h : Option Int) : MediaStream :=
  { «Type» := some "Video", Height := h, IsExternal := none, Index := 0,
    Language := none, DisplayTitle := none }

/-- A source whose only video stream has height 0. -/
def srcH0 : MediaSource :=
  { Id := some "s0", Name := none, MediaStreams := [videoStream (some 0)] }

/-- A source whose only video stream has height 480. -/
def src480 : MediaSource :=
  { Id := some "s480", Name := none, MediaStreams := [videoStream (some 480)] }

/-- A movie item with no media sources and no provider ids. -/
def itemEx : MediaItem :=
  { Id := "it1", Name := some "Film", «Type» := some "Movie", ProviderIds := [],
    MediaSources := [], SeriesId := none, IndexNumber := none,
    ParentIndexNumber := none }

/-- Candidate whose IMDb provider entry differs from the request only by
letter case. -/
def candA : MediaItem :=
  { itemEx with Id := "A", ProviderIds := [("IMDB", "TT123")] }

/-- Candidate whose IMDb provider entry carries a different value. -/
def candB : MediaItem :=
  { itemEx with Id := "B", ProviderIds := [("Imdb", "tt999")] }

/-- Environment whose provider-id search returns `candA` and `candB`. -/
def envC2 : Env :=
  { searchItems := fun _ _ _ => Except.ok [candA, candB]
    getUserItem := fun _ => Except.error ()
    getShowEpisodes := fun _ _ => Except.error () }

/-- An episode with the wrong index, returned by the season-filtered query. -/
def epWrong : MediaItem :=
  { itemEx with
      Id := "e5"
      «Type» := some "Episode"
      IndexNumber := some 5
      ParentIndexNumber := some 1 }

/-- The sought S1E2 episode, only present in the unfiltered query. -/
def epRight : MediaItem :=
  { itemEx with
      Id := "e2"
      «Type» := some "Episode"
      IndexNumber := some 2
      ParentIndexNumber := some 1 }

/-- Environment whose season-filtered episode query misses the requested
episode while the unfiltered query contains it. -/
def envC4 : Env :=
  { searchItems := fun _ _ _ => Except.error ()
    getUserItem := fun _ => Except.error ()
    getShowEpisodes := fun _ filt =>
      match filt with
      | some _ => Except.ok [epWrong]
      | none => Except.ok [epRight] }

/-- A movie item with no media sources, used as a direct-lookup result. -/
def itemNoSrc : MediaItem := { itemEx with Id := "nsrc", Name := some "Bare" }

/-- Environment whose native-id lookup succeeds with `itemNoSrc`. -/
def envJF : Env :=
  { searchItems := fun _ _ _ => Except.error ()
    getUserItem := fun _ => Except.ok itemNoSrc
    getShowEpisodes := fun _ _ => Except.error () }

/-- Environment in which every upstream call fails. -/
def errEnv : Env :=
  { searchItems := fun _ _ _ => Except.error ()
    getUserItem := fun _ => Except.error ()
    getShowEpisodes := fun _ _ => Except.error () }

/-! ## Helper lemmas about the split/join primitives -/

theorem splitChars_ne_nil (sep : Char) (l : List Char) :
    splitChars sep l ≠ [] := by
  cases l with
  | nil => simp [splitChars]
  | cons c cs =>
    unfold splitChars
    cases splitChars sep cs with
    | nil => simp
    | cons r rs =>
      dsimp only
      split <;> simp

theorem splitChars_cons_sep (sep : Char) (cs : List Char) :
    splitChars sep (sep :: cs) = [] :: splitChars sep cs := by
  conv_lhs => rw [splitChars]
  cases h : splitChars sep cs with
  | nil => exact absurd h (splitChars_ne_nil sep cs)
  | cons r rs => simp

theorem splitChars_cons_of_ne (sep c : Char) (cs : List Char) (hc : ¬ c = sep) :
    splitChars sep (c :: cs) =
      match splitChars sep cs with
      | [] => [[c]]
      | r :: rs => (c :: r) :: rs := by
  conv_lhs => rw [splitChars]
  cases h : splitChars sep cs with
  | nil => simp
  | cons r rs => simp [hc]

theorem splitChars_append (sep : Char) (x y : List Char) :
    splitChars sep (x ++ sep :: y) = splitChars sep x ++ splitChars sep y := by
  induction x with
  | nil => rw [List.nil_append, splitChars_cons_sep]; rfl
  | cons c cs ih =>
    by_cases hc : c = sep
    · subst hc
      rw [List.cons_append, splitChars_cons_sep, splitChars_cons_sep, ih,
        List.cons_append]
    · rw [List.cons_append, splitChars_cons_of_ne sep c _ hc,
        splitChars_cons_of_ne sep c _ hc, ih]
      cases h : splitChars sep cs with
      | nil => exact absurd h (splitChars_ne_nil sep cs)
      | cons r rs => simp [h]

theorem splitChars_eq_single (sep : Char) (l : List Char)
    (h : ∀ c ∈ l, c ≠ sep) : splitChars sep l = [l] := by
  induction l with
  | nil => rfl
  | cons c cs ih =>
    have hc : c ≠ sep := h c (List.mem_cons_self c cs)
    rw [splitChars_cons_of_ne sep c cs hc,
      ih (fun d hd => h d (List.mem_cons_of_mem c hd))]

theorem joinChars_splitChars (sep : Char) (l : List Char) :
    joinChars sep (splitChars sep l) = l := by
  induction l with
  | nil => rfl
  | cons c cs ih =>
    by_cases hc : c = sep
    · rw [hc, splitChars_cons_sep]
      cases h : splitChars sep cs with
      | nil => exact absurd h (splitChars_ne_nil sep cs)
      | cons r rs =>
        rw [h] at ih
        show [] ++ sep :: joinChars sep (r :: rs) = sep :: cs
        rw [List.nil_append, ih]
    · rw [splitChars_cons_of_ne sep c cs hc]
      cases h : splitChars sep cs with
      | nil => exact absurd h (splitChars_ne_nil sep cs)
      | cons r rs =>
        rw [h] at ih
        cases rs with
        | nil =>
          show c :: r = c :: cs
          rw [show joinChars sep [r] = r from rfl] at ih
          rw [ih]
        | cons r2 rs2 =>
          show (c :: r) ++ sep :: joinChars sep (r2 :: rs2) = c :: cs
          rw [List.cons_append]
          have hr : r ++ sep :: joinChars sep (r2 :: rs2) = cs := ih
          rw [hr]

theorem string_mk_congr {a b : List Char} (h : a = b) :
    String.mk a = String.mk b := by rw [h]

theorem string_mk_append (a b : List Char) :
    String.mk a ++ String.mk b = String.mk (a ++ b) := rfl

theorem string_data_append (a b : String) :
    (a ++ b).data = a.data ++ b.data := rfl

theorem joinSep_map_mk (l : List (List Char)) :
    joinSep ":" (l.map (fun cs => String.mk cs)) = String.mk (joinChars ':' l) := by
  match l with
  | [] => rfl
  | [x] => rfl
  | x :: y :: ys =>
    show String.mk x ++ ":" ++ joinSep ":" ((y :: ys).map (fun cs => String.mk cs))
        = String.mk (joinChars ':' (x :: y :: ys))
    rw [joinSep_map_mk (y :: ys)]
    show String.mk x ++ String.mk [':'] ++ String.mk (joinChars ':' (y :: ys))
        = String.mk (joinChars ':' (x :: y :: ys))
    rw [string_mk_append, string_mk_append]
    exact string_mk_congr (by rw [List.append_assoc]; rfl)

/-! ## Behaviour of the series-id parser -/

theorem parseStreamId_series_pos (id : String) (se ep : Int)
    (h3 : 3 ≤ (jsSplit ':' id).length)
    (hep : jsParseInt ((jsSplit ':' id).getLastD "") = some ep)
    (hse : jsParseInt ((jsSplit ':' id).dropLast.getLastD "") = some se) :
    parseStreamId "series" id =
      (joinSep ":" (jsSplit ':' id).dropLast.dropLast, some se, some ep) := by
  unfold parseStreamId
  rw [if_pos rfl, if_pos h3, hep, hse]

theorem parseStreamId_series_neg (id : String)
    (h : ¬ 3 ≤ (jsSplit ':' id).length ∨
        jsParseInt ((jsSplit ':' id).getLastD "") = none ∨
        jsParseInt ((jsSplit ':' id).dropLast.getLastD "") = none) :
    parseStreamId "series" id = (id, none, none) := by
  unfold parseStreamId
  rw [if_pos rfl]
  rcases h with h | h | h
  · rw [if_neg h]
  · by_cases h3 : 3 ≤ (jsSplit ':' id).length
    · rw [if_pos h3, h]
    · rw [if_neg h3]
  · by_cases h3 : 3 ≤ (jsSplit ':' id).length
    · rw [if_pos h3, h]
      cases hep : jsParseInt ((jsSplit ':' id).getLastD "") <;> rfl
    · rw [if_neg h3]

theorem jsSplit_concat (base sStr eStr : String)
    (hs : ∀ c ∈ sStr.data, c ≠ ':') (he : ∀ c ∈ eStr.data, c ≠ ':') :
    jsSplit ':' (base ++ ":" ++ sStr ++ ":" ++ eStr) =
      jsSplit ':' base ++ [sStr, eStr] := by
  unfold jsSplit
  have hcolon : (":" : String).data = [':'] := rfl
  have hdata : (base ++ ":" ++ sStr ++ ":" ++ eStr).data
      = base.data ++ ':' :: (sStr.data ++ ':' :: eStr.data) := by
    simp only [string_data_append, hcolon]
    simp [List.append_assoc]
  rw [hdata, splitChars_append, splitChars_append,
    splitChars_eq_single ':' sStr.data hs, splitChars_eq_single ':' eStr.data he,
    List.map_append]
  rfl

theorem jsSplit_base_len (base : String) : 1 ≤ (jsSplit ':' base).length := by
  unfold jsSplit
  rw [List.length_map]
  exact List.length_pos.mpr (splitChars_ne_nil ':' base.data)

theorem joinSep_jsSplit (base : String) :
    joinSep ":" (jsSplit ':' base) = base := by
  unfold jsSplit
  rw [joinSep_map_mk, joinChars_splitChars]

theorem parseStreamId_concat (base sStr eStr : String) (S E : Nat)
    (hs : ∀ c ∈ sStr.data, c ≠ ':') (he : ∀ c ∈ eStr.data, c ≠ ':')
    (hS : jsParseInt sStr = some (S : Int)) (hE : jsParseInt eStr = some (E : Int)) :
    parseStreamId "series" (base ++ ":" ++ sStr ++ ":" ++ eStr)
      = (base, some (S : Int), some (E : Int)) := by
  have hsplit := jsSplit_concat base sStr eStr hs he
  have hassoc : jsSplit ':' base ++ [sStr, eStr]
      = (jsSplit ':' base ++ [sStr]) ++ [eStr] := by simp
  have hlen : 3 ≤ (jsSplit ':' (base ++ ":" ++ sStr ++ ":" ++ eStr)).length := by
    rw [hsplit, List.length_append]
    have := jsSplit_base_len base
    simp only [List.length_cons, List.length_singleton]
    omega
  have hlast : (jsSplit ':' (base ++ ":" ++ sStr ++ ":" ++ eStr)).getLastD "" = eStr := by
    rw [hsplit, hassoc, List.getLastD_concat]
  have hdl : (jsSplit ':' (base ++ ":" ++ sStr ++ ":" ++ eStr)).dropLast
      = jsSplit ':' base ++ [sStr] := by
    rw [hsplit, hassoc, List.dropLast_concat]
  have hsecond : (jsSplit ':' (base ++ ":" ++ sStr ++ ":" ++ eStr)).dropLast.getLastD ""
      = sStr := by
    rw [hdl, List.getLastD_concat]
  have hdl2 : (jsSplit ':' (base ++ ":" ++ sStr ++ ":" ++ eStr)).dropLast.dropLast
      = jsSplit ':' base := by
    rw [hdl, List.dropLast_concat]
  have hpos := parseStreamId_series_pos (base ++ ":" ++ sStr ++ ":" ++ eStr) S E hlen
    (by rw [hlast]; exact hE) (by rw [hsecond]; exact hS)
  rw [hpos, hdl2, joinSep_jsSplit]

/-! ## Claim theorems -/

/-- C1 (corrected): for `kind = series` the resolver splits the id on `:`;
whenever the split has at least three segments and the last two both parse
under JS `parseInt` semantics (optional sign, value taken from the leading
numeric run — not necessarily non-negative), the parsed values become
(season, episode) and the remaining leading segments rejoined with `:` are
the base identifier (in particular the base of `<base>:<S>:<E>` is
`<base>`); otherwise the whole original string is the base identifier with
season and episode absent. -/
theorem parseStreamId_characterization :
    (∀ (id : String) (se ep : Int),
        3 ≤ (jsSplit ':' id).length →
        jsParseInt ((jsSplit ':' id).getLastD "") = some ep →
        jsParseInt ((jsSplit ':' id).dropLast.getLastD "") = some se →
        parseStreamId "series" id =
          (joinSep ":" (jsSplit ':' id).dropLast.dropLast, some se, some ep)) ∧
    (∀ id : String,
        (¬ 3 ≤ (jsSplit ':' id).length ∨
         jsParseInt ((jsSplit ':' id).getLastD "") = none ∨
         jsParseInt ((jsSplit ':' id).dropLast.getLastD "") = none) →
        parseStreamId "series" id = (id, none, none)) ∧
    (∀ (base sStr eStr : String) (S E : Nat),
        (∀ c ∈ sStr.data, c ≠ ':') → (∀ c ∈ eStr.data, c ≠ ':') →
        jsParseInt sStr = some (S : Int) → jsParseInt eStr = some (E : Int) →
        parseStreamId "series" (base ++ ":" ++ sStr ++ ":" ++ eStr)
          = (base, some (S : Int), some (E : Int))) :=
  ⟨fun id se ep h3 hep hse => parseStreamId_series_pos id se ep h3 hep hse,
   fun id h => parseStreamId_series_neg id h,
   fun base s e S E hs he hS hE => parseStreamId_concat base s e S E hs he hS hE⟩

/-- Witness for C1 at the claim's own example `tmdb:12345:1:2`. -/
theorem parseStreamId_characterization_witness :
    parseStreamId "series" "tmdb:12345:1:2" = ("tmdb:12345", some 1, some 2) := by
  have h := parseStreamId_characterization.2.2 "tmdb:12345" "1" "2" 1 2
    (by decide) (by decide) (by decide) (by decide)
  have hid : ("tmdb:12345" ++ ":" ++ "1" ++ ":" ++ "2" : String) = "tmdb:12345:1:2" := by
    decide
  rw [hid] at h
  simpa using h

/-- C1 counterexample: `"-1"` parses under JS `parseInt` to the negative
integer `-1`, so for the id `a:-1:2` the last two segments do NOT both
parse as non-negative integers, yet the code still strips them as
(season, episode) = (-1, 2) instead of keeping the whole string as the
base identifier. -/
theorem parseStreamId_negative_season_counterexample :
    jsParseInt "-1" = some (-1) ∧
    parseStreamId "series" "a:-1:2" = ("a", some (-1), some 2) ∧
    parseStreamId "series" "a:-1:2" ≠ ("a:-1:2", none, none) := by
  refine ⟨rfl, rfl, ?_⟩
  decide

/-- C2 (confirmed): the local re-check of `findByProviderId` keeps exactly
the candidates having some provider-id entry whose key equals the requested
scheme case-insensitively and whose value equals the requested value
case-insensitively. -/
theorem findByProviderId_mem_iff (env : Env) (pid v : String) (ty : Option String)
    (items : List MediaItem)
    (h : env.searchItems pid v (includeTypesFor ty) = Except.ok items) :
    ∀ it : MediaItem, it ∈ findByProviderId env pid v ty ↔
      (it ∈ items ∧ ∃ kv ∈ it.ProviderIds,
        jsToLower kv.1 = jsToLower pid ∧ jsToLower kv.2 = jsToLower v) := by
  intro it
  unfold findByProviderId
  rw [h]
  simp [List.mem_filter, List.any_eq_true]

/-- Witness for C2: a candidate whose IMDb value differs only by case is
kept, one with a different value is discarded although upstream returned
both. -/
theorem findByProviderId_mem_iff_witness :
    candA ∈ findByProviderId envC2 "Imdb" "tt123" none ∧
    candB ∉ findByProviderId envC2 "Imdb" "tt123" none := by
  constructor
  · exact ((findByProviderId_mem_iff envC2 "Imdb" "tt123" none [candA, candB] rfl)
      candA).mpr ⟨by decide, ("IMDB", "TT123"), by decide, by decide, by decide⟩
  · intro hm
    have h2 := ((findByProviderId_mem_iff envC2 "Imdb" "tt123" none [candA, candB] rfl)
      candB).mp hm
    revert h2
    decide

/-- C3 (confirmed): after resolution returns a non-empty candidate list,
the stream handler assembles descriptors from the first candidate only;
the tail never influences the output. -/
theorem streamsForItems_first_only (cfg : Config) (env : Env) (ty : String)
    (season episode : Option Int) (x : MediaItem) (rest rest' : List MediaItem) :
    streamsForItems cfg env ty season episode (x :: rest)
      = streamsForItems cfg env ty season episode (x :: rest')
    ∧ streamsForItems cfg env ty season episode (x :: rest)
      = streamsForItems cfg env ty season episode [x] :=
  ⟨rfl, rfl⟩

/-- C4 (confirmed): `getEpisode` scans the season-filtered query for the
requested episode index and, when nothing matches, falls back to the
unfiltered query filtered client-side on parent index and index. -/
theorem getEpisode_primary_fallback (env : Env) (sid : String) (s e : Int)
    (prim allEps : List MediaItem)
    (h1 : env.getShowEpisodes sid (some s) = Except.ok prim)
    (h2 : env.getShowEpisodes sid none = Except.ok allEps) :
    getEpisode env sid s e =
      match prim.find? (fun i => i.IndexNumber == some e) with
      | some x => some x
      | none => allEps.find? (fun i =>
          i.ParentIndexNumber == some s && i.IndexNumber == some e) := by
  unfold getEpisode getEpisodeFallback
  rw [h1, h2]

/-- Witness for C4 exercising the fallback path: the season-filtered query
misses S1E2, the unfiltered query contains it. -/
theorem getEpisode_primary_fallback_witness :
    getEpisode envC4 "ser1" 1 2 = some epRight := by
  have h := getEpisode_primary_fallback envC4 "ser1" 1 2 [epWrong] [epRight] rfl rfl
  rw [h]
  decide

/-- C5 (confirmed): scheme classification of `resolveStremioId` — `tt`
means IMDb with the full string, `tmdb:`/`tvdb:`/`anidb:` strip their
prefix, `jellyfin:` does a direct item lookup bypassing the provider-id
search, and anything else resolves to zero items. -/
theorem resolveStremioId_scheme_rules (env : Env) (ty : Option String) (sid : String) :
    (jsStartsWith sid "tt" = true →
      resolveStremioId env sid ty = findByProviderId env "Imdb" sid ty) ∧
    (jsStartsWith sid "tt" = false → jsStartsWith sid "tmdb:" = true →
      resolveStremioId env sid ty = findByProviderId env "Tmdb" (jsDrop sid 5) ty) ∧
    (jsStartsWith sid "tt" = false → jsStartsWith sid "tmdb:" = false →
      jsStartsWith sid "tvdb:" = true →
      resolveStremioId env sid ty = findByProviderId env "Tvdb" (jsDrop sid 5) ty) ∧
    (jsStartsWith sid "tt" = false → jsStartsWith sid "tmdb:" = false →
      jsStartsWith sid "tvdb:" = false → jsStartsWith sid "anidb:" = true →
      resolveStremioId env sid ty = findByProviderId env "AniDb" (jsDrop sid 6) ty) ∧
    (jsStartsWith sid "tt" = false → jsStartsWith sid "tmdb:" = false →
      jsStartsWith sid "tvdb:" = false → jsStartsWith sid "anidb:" = false →
      jsStartsWith sid "jellyfin:" = true →
      resolveStremioId env sid ty =
        match env.getUserItem (jsDrop sid 9) with
        | Except.ok item => [item]
        | Except.error _ => []) ∧
    (jsStartsWith sid "tt" = false → jsStartsWith sid "tmdb:" = false →
      jsStartsWith sid "tvdb:" = false → jsStartsWith sid "anidb:" = false →
      jsStartsWith sid "jellyfin:" = false →
      resolveStremioId env sid ty = []) := by
  refine ⟨?_, ?_, ?_, ?_, ?_, ?_⟩ <;>
    (intros; simp_all [resolveStremioId])

/-- Witness for C5 at concrete identifiers of each interesting shape. -/
theorem resolveStremioId_scheme_rules_witness :
    resolveStremioId envJF "tt0903747" (some "movie")
      = findByProviderId envJF "Imdb" "tt0903747" (some "movie") ∧
    resolveStremioId envJF "jellyfin:nsrc" (some "movie") = [itemNoSrc] ∧
    resolveStremioId envJF "weird" (some "movie") = [] := by
  refine ⟨(resolveStremioId_scheme_rules envJF (some "movie") "tt0903747").1 (by decide),
    ?_, ?_⟩
  · have h := (resolveStremioId_scheme_rules envJF (some "movie") "jellyfin:nsrc").2.2.2.2.1
      (by decide) (by decide) (by decide) (by decide) (by decide)
    rw [h]
    rfl
  · exact (resolveStremioId_scheme_rules envJF (some "movie") "weird").2.2.2.2.2
      (by decide) (by decide) (by decide) (by decide) (by decide)

/-- C6 counterexample: with no quality label the title is
`📺 <server-name>`, not the bare server name claimed by the spec (a
television-emoji-plus-space prefix always precedes the server name). -/
theorem buildStream_title_counterexample :
    streamQualityLabel itemEx none = "" ∧
    (buildStream cfgEx "id1" itemEx none).title ≠ cfgEx.serverName := by
  refine ⟨rfl, ?_⟩
  decide

/-- C6 (corrected): the display title is `📺 <server-name>\n<quality-label>`
when a quality label exists and `📺 <server-name>` otherwise. -/
theorem buildStream_title_composition (cfg : Config) (sourceId : String)
    (item : MediaItem) (ms : Option MediaSource) :
    (buildStream cfg sourceId item ms).title =
      if streamQualityLabel item ms = "" then "📺 " ++ cfg.serverName
      else "📺 " ++ cfg.serverName ++ "\n" ++ streamQualityLabel item ms := rfl

/-- C7 counterexample: a video stream of height 0 is readable yet yields no
resolution label, where the claim's formula demands `"0p"`. -/
theorem resolutionLabel_zero_height_counterexample :
    getVideoHeight srcH0 = some 0 ∧ resolutionLabel srcH0 = "" ∧
    ("" : String) ≠ "0p" :=
  ⟨rfl, rfl, by decide⟩

/-- C7 (corrected): the resolution bucket of the first video stream's
height is `4K` from 2160, `1080p` from 1080, `720p` from 720, else
`<height>p` — for non-zero heights; a missing video stream, an unreadable
height, or height 0 (falsy in JS) produce no resolution label. -/
theorem resolutionLabel_buckets (ms : MediaSource) :
    (getVideoHeight ms = none → resolutionLabel ms = "") ∧
    (getVideoHeight ms = some 0 → resolutionLabel ms = "") ∧
    (∀ h : Int, getVideoHeight ms = some h → h ≠ 0 →
      resolutionLabel ms =
        if h ≥ 2160 then "4K"
        else if h ≥ 1080 then "1080p"
        else if h ≥ 720 then "720p"
        else toString h ++ "p") := by
  refine ⟨?_, ?_, ?_⟩
  · intro hnone
    unfold resolutionLabel
    rw [hnone]
  · intro h0
    unfold resolutionLabel
    rw [h0]
    simp
  · intro h hsome hne
    unfold resolutionLabel
    rw [hsome]
    simp [hne]

/-- Witness for C7 at the claim's example height 480. -/
theorem resolutionLabel_buckets_witness : resolutionLabel src480 = "480p" := by
  have h := (resolutionLabel_buckets src480).2.2 480 rfl (by decide)
  rw [h]
  decide

/-- C8 (confirmed): an item with an empty media-source list yields exactly
one fallback descriptor whose playback URL is built from the item's own id
and which carries no quality label. -/
theorem assembleStreams_empty_sources (cfg : Config) (env : Env) (id : String)
    (item : MediaItem) (rest : List MediaItem)
    (hres : resolveStremioId env id (some "movie") = item :: rest)
    (hsrc : item.MediaSources = []) :
    assembleStreams cfg item = [buildStream cfg item.Id item none] ∧
    streamHandler cfg env "movie" id = [buildStream cfg item.Id item none] ∧
    (buildStream cfg item.Id item none).url = streamUrl cfg item.Id ∧
    streamQualityLabel item none = "" := by
  have hassemble : assembleStreams cfg item = [buildStream cfg item.Id item none] := by
    unfold assembleStreams
    rw [hsrc]
    rfl
  refine ⟨hassemble, ?_, rfl, rfl⟩
  have hp : parseStreamId "movie" id = (id, none, none) := by
    unfold parseStreamId
    rw [if_neg (by decide)]
  unfold streamHandler
  rw [hp]
  show streamsForItems cfg env "movie" none none
    (resolveStremioId env id (some "movie")) = _
  rw [hres]
  simp only [streamsForItems]
  rw [if_neg (by decide : ¬ ("movie" : String) = "series")]
  exact hassemble

/-- Witness for C8: a direct native-id lookup resolving to a sourceless
item produces the single fallback descriptor. -/
theorem assembleStreams_empty_sources_witness :
    streamHandler cfgEx envJF "movie" "jellyfin:nsrc"
      = [buildStream cfgEx itemNoSrc.Id itemNoSrc none] :=
  (assembleStreams_empty_sources cfgEx envJF "jellyfin:nsrc" itemNoSrc [] rfl rfl).2.1

/-- C9 (confirmed): upstream failures never escape the pipeline — an
erroring provider-id search yields zero candidates, an erroring native
lookup or episode query yields none, and the stream handler answers with
the empty stream list. -/
theorem pipeline_errors_degrade_to_empty (env : Env)
    (hs : ∀ a b c, env.searchItems a b c = Except.error ())
    (hg : ∀ a, env.getUserItem a = Except.error ())
    (he : ∀ a b, env.getShowEpisodes a b = Except.error ()) :
    (∀ pid v k, findByProviderId env pid v k = []) ∧
    (∀ sid ty, resolveStremioId env sid ty = []) ∧
    (∀ a (s e : Int), getEpisode env a s e = none) ∧
    (∀ cfg ty id, streamHandler cfg env ty id = []) := by
  have hf : ∀ pid v k, findByProviderId env pid v k = [] := by
    intro pid v k
    unfold findByProviderId
    rw [hs]
  have hr : ∀ sid ty, resolveStremioId env sid ty = [] := by
    intro sid ty
    unfold resolveStremioId
    split
    · exact hf _ _ _
    · split
      · exact hf _ _ _
      · split
        · exact hf _ _ _
        · split
          · exact hf _ _ _
          · split
            · rw [hg]
            · rfl
  have hgE : ∀ a (s e : Int), getEpisode env a s e = none := by
    intro a s e
    unfold getEpisode
    rw [he]
  refine ⟨hf, hr, hgE, ?_⟩
  intro cfg ty id
  unfold streamHandler
  rw [hr]
  rfl

/-- Witness for C9 on the everywhere-failing environment. -/
theorem pipeline_errors_degrade_to_empty_witness :
    findByProviderId errEnv "Imdb" "tt1" none = [] ∧
    resolveStremioId errEnv "tt1" (some "movie") = [] ∧
    getEpisode errEnv "ser" 1 2 = none ∧
    streamHandler cfgEx errEnv "movie" "tt1" = [] := by
  obtain ⟨h1, h2, h3, h4⟩ := pipeline_errors_degrade_to_empty errEnv
    (fun _ _ _ => rfl) (fun _ => rfl) (fun _ _ => rfl)
  exact ⟨h1 "Imdb" "tt1" none, h2 "tt1" (some "movie"), h3 "ser" 1 2,
    h4 cfgEx "movie" "tt1"⟩

/-- C10 (confirmed): the sourceless fallback descriptor never carries
subtitles — subtitle extraction of the empty source list is empty and the
subtitles field is omitted. -/
theorem fallback_descriptor_no_subtitles (cfg : Config) (sourceId : String)
    (item : MediaItem) :
    extractSubtitles cfg [] = [] ∧
    (buildStream cfg sourceId item none).subtitles = none :=
  ⟨rfl, rfl⟩

end StreamBridge
